import Mathlib

/-!
# FreeFoodDropServer: listener lifecycle of `src/main.c`

A shallow embedding of the single source file.  The process is a `World`: the two
global variables of the program (`sockfd`, `should_continue`), the part of the
operating system the program talks to (the table of open descriptors and the
table of signal dispositions), the sequence of effects issued so far (`trace`)
and the exit status once `err` has ended the process.

Results of the system calls are inputs: `StartupOutcomes` carries what
`getaddrinfo`, `socket` and `bind` return during `init_networking`, and a list of
`AcceptOutcome` carries what the successive `accept` calls of `main_loop` return.
When that list is used up the next `accept` call blocks for good.
-/

namespace FreeFoodDropServer

/-- Signal dispositions that occur in the program: the default one and the
function `signal_handler`. -/
inductive Disposition where
  | SIG_DFL
  | signal_handler
  deriving DecidableEq, Repr

/-- Effects the program issues, in the order of the calls in the source. -/
inductive Event where
  | getaddrinfo (status : Int)
  | socket (ret : Int)
  | bind (fd : Int) (ret : Int)
  | freeaddrinfo
  | signal (signum : Int) (d : Disposition)
  | listen (fd : Int) (backlog : Int)
  | raise (signum : Int)
  | printf (s : String)
  | warn (s : String)
  | err (status : Int) (s : String)
  | accept_call (fd : Int)
  | accept_ret (ret : Int)
  | enter_handle_connection (fd : Int)
  | close (fd : Int)
  deriving DecidableEq, Repr

/-- The fields of `struct sockaddr` that `print_address` reads: the family, and
the text `inet_ntop` produces for the address. -/
structure Sockaddr where
  sa_family : Int
  ip : String
  deriving DecidableEq, Repr

/-- Process state. -/
structure World where
  /-- global `int sockfd` (line 47) -/
  sockfd : Int
  /-- global `int should_continue` (line 50) -/
  should_continue : Int
  /-- descriptors the operating system holds open for the process -/
  openFds : List Int
  /-- signal dispositions set so far, most recent first -/
  dispositions : List (Int × Disposition)
  /-- effects issued so far, oldest first -/
  trace : List Event
  /-- exit status once the process has exited -/
  exited : Option Int
  deriving DecidableEq, Repr

/-- Return values of the system calls made by `init_networking`. -/
structure StartupOutcomes where
  getaddrinfo_status : Int
  socket_ret : Int
  bind_ret : Int
  deriving DecidableEq, Repr

/-- Result of one `accept` call: the return value, and the peer address the call
stores in `their_sock` when it succeeds. -/
structure AcceptOutcome where
  ret : Int
  peer : Sockaddr
  deriving DecidableEq, Repr

def SERVER_PORT : String := "8110"

def BACKLOG : Int := 20

/-- Value of `SIGINT` in `<signal.h>`. -/
def SIGINT : Int := 2

/-- Value of `SIGTERM` in `<signal.h>`. -/
def SIGTERM : Int := 15

/-- Value of `AF_INET` in `<sys/socket.h>`. -/
def AF_INET : Int := 2

/-- Value of `AF_INET6` in `<sys/socket.h>` (Linux). -/
def AF_INET6 : Int := 10

/-- State of the process when `main` starts: globals as initialised at lines 47
and 50, the three standard descriptors open, every signal at its default. -/
def initial : World :=
  { sockfd := -1, should_continue := 1, openFds := [0, 1, 2], dispositions := [],
    trace := [], exited := none }

/-- Append one effect to the trace. -/
def emit (e : Event) (w : World) : World :=
  { w with trace := w.trace ++ [e] }

/-- `close(fd)`: the descriptor is no longer open afterwards. -/
def sys_close (fd : Int) (w : World) : World :=
  { w with openFds := w.openFds.filter (fun d => d != fd),
           trace := w.trace ++ [Event.close fd] }

/-- `socket(...)` returning `ret`: a non-negative result is a new open descriptor. -/
def sys_socket (ret : Int) (w : World) : World :=
  { w with openFds := if 0 ≤ ret then ret :: w.openFds else w.openFds,
           trace := w.trace ++ [Event.socket ret] }

/-- `signal(signum, d)`. -/
def sys_signal (signum : Int) (d : Disposition) (w : World) : World :=
  { w with dispositions := (signum, d) :: w.dispositions,
           trace := w.trace ++ [Event.signal signum d] }

/-- `raise(signum)`: recorded as an effect; what the default action then does to
the process is the operating system's part. -/
def sys_raise (signum : Int) (w : World) : World :=
  emit (Event.raise signum) w

/-- `err(status, msg)`: diagnostic, then the process exits with `status`. -/
def err (status : Int) (msg : String) (w : World) : World :=
  { w with trace := w.trace ++ [Event.err status msg], exited := some status }

/-- Current disposition of a signal. -/
def disposition (w : World) (signum : Int) : Disposition :=
  match w.dispositions.lookup signum with
  | some d => d
  | none => Disposition.SIG_DFL

/-- Descriptors closed along a trace, in order. -/
def closes : List Event → List Int
  | [] => []
  | Event.close fd :: t => fd :: closes t
  | _ :: t => closes t

/-- Descriptors on which `handle_connection` was entered along a trace, in order. -/
def dispatches : List Event → List Int
  | [] => []
  | Event.enter_handle_connection fd :: t => fd :: dispatches t
  | _ :: t => dispatches t

/-- Lines 150-158. -/
def close_socket (w : World) : World :=
  let w1 := if w.sockfd > -1 then sys_close w.sockfd w else w
  { w1 with sockfd := -1 }

/-- Lines 69-102.  `sockfd` below is the local variable declared at line 73; the
function has no assignment to the global of the same name. -/
def init_networking (o : StartupOutcomes) (w : World) : World :=
  let status := o.getaddrinfo_status
  let w := emit (Event.getaddrinfo status) w
  if status = -1 then err 1 "Failed to create address" w else
  let sockfd := o.socket_ret
  let w := sys_socket sockfd w
  if sockfd = -1 then err 1 "Failed to create socket" w else
  let status := o.bind_ret
  let w := emit (Event.bind sockfd status) w
  if status = -1 then err 1 ("Failed to bind port " ++ SERVER_PORT) w else
  let w := emit Event.freeaddrinfo w
  let w := sys_signal SIGINT Disposition.signal_handler w
  let w := sys_signal SIGTERM Disposition.signal_handler w
  emit (Event.listen sockfd BACKLOG) w

/-- Lines 108-118. -/
def signal_handler (signum : Int) (w : World) : World :=
  let w := close_socket w
  let w := sys_signal signum Disposition.SIG_DFL w
  sys_raise signum w

/-- Lines 166-188, called with `stdout`. -/
def print_address (sockaddr : Sockaddr) (w : World) : World :=
  if sockaddr.sa_family = AF_INET then emit (Event.printf sockaddr.ip) w
  else if sockaddr.sa_family = AF_INET6 then emit (Event.printf sockaddr.ip) w
  else w

/-- Lines 194-199.  The entry into the function is recorded as an effect of its own. -/
def handle_connection (socket : Int) (w : World) : World :=
  let w := emit (Event.enter_handle_connection socket) w
  sys_close socket w

/-- `accept(sockfd, &their_sock, &their_socklen)` returning as `o` says: on
success the new descriptor is open and `their_sock` holds the peer address, on
failure `their_sock` is left as it was. -/
def sys_accept (o : AcceptOutcome) (their_sock : Sockaddr) (w : World) :
    World × Sockaddr × Int :=
  let w := emit (Event.accept_call w.sockfd) w
  let w := emit (Event.accept_ret o.ret) w
  if 0 ≤ o.ret then ({ w with openFds := o.ret :: w.openFds }, o.peer, o.ret)
  else (w, their_sock, o.ret)

/-- Lines 130-143: the body of the `while` loop, for one `accept` result.  The
second component is the local `their_sock` after the iteration. -/
def loop_body (o : AcceptOutcome) (their_sock : Sockaddr) (w : World) : World × Sockaddr :=
  let w := emit (Event.printf "Accepting connections.\n") w
  let r := sys_accept o their_sock w
  let w := r.1
  let their_sock := r.2.1
  let newfd := r.2.2
  let w := if newfd = -1 then emit (Event.warn "Failed to accept connection") w else w
  let w := emit (Event.printf "Got a connection from ") w
  let w := print_address their_sock w
  let w := emit (Event.printf "\n") w
  (handle_connection newfd w, their_sock)

/-- Lines 121-147.  Each element of the list is the result of one `accept` call;
once the list is used up the next `accept` call does not return. -/
def main_loop : List AcceptOutcome → Sockaddr → World → World
  | [], _, w =>
    if w.should_continue ≠ 0 then
      emit (Event.accept_call w.sockfd) (emit (Event.printf "Accepting connections.\n") w)
    else close_socket w
  | o :: os, their_sock, w =>
    if w.should_continue ≠ 0 then
      main_loop os (loop_body o their_sock w).2 (loop_body o their_sock w).1
    else close_socket w

/-- Lines 204-209.  `their_sock` is the content the uninitialised local of
`main_loop` happens to have. -/
def main (so : StartupOutcomes) (script : List AcceptOutcome) (their_sock : Sockaddr)
    (w : World) : World :=
  let w := init_networking so w
  match w.exited with
  | some _ => w
  | none => main_loop script their_sock w

/-- An invocation of one of the two routines that close the listening socket. -/
inductive Op where
  | close_socket
  | signal_handler (signum : Int)
  deriving DecidableEq, Repr

def Op.run : Op → World → World
  | Op.close_socket, w => FreeFoodDropServer.close_socket w
  | Op.signal_handler signum, w => FreeFoodDropServer.signal_handler signum w

/-- Run a finite sequence of invocations, one after the other. -/
def runOps : List Op → World → World
  | [], w => w
  | op :: ops, w => runOps ops (op.run w)

/-- A state in which the listener is set up on descriptor 3, for evaluation. -/
def listening : World :=
  { sockfd := 3, should_continue := 1, openFds := [3, 0, 1, 2],
    dispositions := [(SIGTERM, Disposition.signal_handler), (SIGINT, Disposition.signal_handler)],
    trace := [], exited := none }

/-- Effects of printing a peer address. -/
def address_events (sockaddr : Sockaddr) : List Event :=
  if sockaddr.sa_family = AF_INET then [Event.printf sockaddr.ip]
  else if sockaddr.sa_family = AF_INET6 then [Event.printf sockaddr.ip]
  else []

/-- Effects of one loop iteration whose `accept` call on `listenfd` returned the
descriptor `o.ret` of a connection from `o.peer`. -/
def accepted_iteration (listenfd : Int) (o : AcceptOutcome) : List Event :=
  [Event.printf "Accepting connections.\n", Event.accept_call listenfd, Event.accept_ret o.ret,
    Event.printf "Got a connection from "] ++ address_events o.peer ++
  [Event.printf "\n", Event.enter_handle_connection o.ret, Event.close o.ret]

/-- Effects of consecutive iterations, one per accepted connection. -/
def accepted_run (listenfd : Int) : List AcceptOutcome → List Event
  | [] => []
  | o :: os => accepted_iteration listenfd o ++ accepted_run listenfd os

/-! ## Auxiliary lemmas -/

theorem closes_append (a b : List Event) : closes (a ++ b) = closes a ++ closes b := by
  induction a with
  | nil => rfl
  | cons e t ih => cases e <;> simp [closes, ih]

theorem dispatches_append (a b : List Event) :
    dispatches (a ++ b) = dispatches a ++ dispatches b := by
  induction a with
  | nil => rfl
  | cons e t ih => cases e <;> simp [dispatches, ih]

theorem close_socket_sockfd (w : World) : (close_socket w).sockfd = -1 := by
  simp [close_socket]

theorem close_socket_closed (w : World) (h : w.sockfd = -1) : close_socket w = w := by
  cases w
  simp_all [close_socket]

theorem close_socket_trace (w : World) :
    (close_socket w).trace =
      w.trace ++ (if w.sockfd > -1 then [Event.close w.sockfd] else []) := by
  unfold close_socket
  by_cases h : w.sockfd > -1 <;> simp [h, sys_close]

theorem signal_handler_sockfd (signum : Int) (w : World) :
    (signal_handler signum w).sockfd = -1 := by
  simp [signal_handler, sys_raise, sys_signal, emit, close_socket]

theorem signal_handler_trace (signum : Int) (w : World) :
    (signal_handler signum w).trace =
      w.trace ++ (if w.sockfd > -1 then [Event.close w.sockfd] else []) ++
        [Event.signal signum Disposition.SIG_DFL, Event.raise signum] := by
  simp [signal_handler, sys_raise, sys_signal, emit, close_socket_trace]

theorem Op.run_sockfd (op : Op) (w : World) : (op.run w).sockfd = -1 := by
  cases op
  · exact close_socket_sockfd w
  · exact signal_handler_sockfd _ w

theorem Op.run_closes (op : Op) (w : World) :
    closes (op.run w).trace =
      closes w.trace ++ (if w.sockfd > -1 then [w.sockfd] else []) := by
  cases op with
  | close_socket =>
    simp only [Op.run, close_socket_trace, closes_append]
    by_cases h : w.sockfd > -1 <;> simp [h, closes]
  | signal_handler signum =>
    simp only [Op.run, signal_handler_trace, closes_append]
    by_cases h : w.sockfd > -1 <;> simp [h, closes]

theorem runOps_closed (ops : List Op) (w : World) (h : w.sockfd = -1) :
    closes (runOps ops w).trace = closes w.trace := by
  induction ops generalizing w with
  | nil => rfl
  | cons op ops ih =>
    simp only [runOps]
    rw [ih (op.run w) (Op.run_sockfd op w), Op.run_closes, h]
    simp

theorem runOps_closes (ops : List Op) (w : World) :
    closes (runOps ops w).trace =
      closes w.trace ++ (if w.sockfd > -1 ∧ ops ≠ [] then [w.sockfd] else []) := by
  cases ops with
  | nil => simp [runOps]
  | cons op ops =>
    simp only [runOps]
    rw [runOps_closed ops (op.run w) (Op.run_sockfd op w), Op.run_closes]
    simp

theorem print_address_eq (sockaddr : Sockaddr) (w : World) :
    print_address sockaddr w = { w with trace := w.trace ++ address_events sockaddr } := by
  unfold print_address address_events
  split_ifs <;> simp [emit]

theorem init_networking_sockfd (so : StartupOutcomes) (w : World) :
    (init_networking so w).sockfd = w.sockfd := by
  unfold init_networking
  simp only
  split_ifs <;> simp [err, emit, sys_socket, sys_signal]

theorem signal_handler_should_continue (signum : Int) (w : World) :
    (signal_handler signum w).should_continue = w.should_continue := by
  unfold signal_handler close_socket
  by_cases h : w.sockfd > -1 <;> simp [h, sys_raise, sys_signal, emit, sys_close]

theorem loop_body_sockfd (o : AcceptOutcome) (their_sock : Sockaddr) (w : World) :
    (loop_body o their_sock w).1.sockfd = w.sockfd := by
  simp only [loop_body, sys_accept, print_address_eq, handle_connection, sys_close, emit]
  split_ifs <;> rfl

theorem loop_body_should_continue (o : AcceptOutcome) (their_sock : Sockaddr) (w : World) :
    (loop_body o their_sock w).1.should_continue = w.should_continue := by
  simp only [loop_body, sys_accept, print_address_eq, handle_connection, sys_close, emit]
  split_ifs <;> rfl

theorem loop_body_exited (o : AcceptOutcome) (their_sock : Sockaddr) (w : World) :
    (loop_body o their_sock w).1.exited = w.exited := by
  simp only [loop_body, sys_accept, print_address_eq, handle_connection, sys_close, emit]
  split_ifs <;> rfl

theorem loop_body_accepted (o : AcceptOutcome) (their_sock : Sockaddr) (w : World)
    (h : 0 ≤ o.ret) :
    (loop_body o their_sock w).1.trace = w.trace ++ accepted_iteration w.sockfd o := by
  have h1 : o.ret ≠ -1 := by omega
  simp [loop_body, sys_accept, print_address_eq, handle_connection, sys_close, emit, h, h1,
    accepted_iteration]

theorem loop_body_failed (o : AcceptOutcome) (their_sock : Sockaddr) (w : World)
    (h : o.ret = -1) :
    (loop_body o their_sock w).1.trace =
      w.trace ++ [Event.printf "Accepting connections.\n", Event.accept_call w.sockfd,
        Event.accept_ret (-1), Event.warn "Failed to accept connection",
        Event.printf "Got a connection from "] ++ address_events their_sock ++
        [Event.printf "\n", Event.enter_handle_connection (-1), Event.close (-1)] := by
  simp [loop_body, sys_accept, print_address_eq, handle_connection, sys_close, emit, h]

theorem main_loop_calls_accept (os : List AcceptOutcome) (their_sock : Sockaddr) (w : World)
    (hrun : w.should_continue ≠ 0) :
    ∃ rest, (main_loop os their_sock w).trace =
      w.trace ++ [Event.printf "Accepting connections.\n", Event.accept_call w.sockfd] ++ rest := by
  induction os generalizing their_sock w with
  | nil => exact ⟨[], by simp [main_loop, hrun, emit]⟩
  | cons o os ih =>
    have hrun2 : (loop_body o their_sock w).1.should_continue ≠ 0 := by
      rw [loop_body_should_continue]; exact hrun
    obtain ⟨rest, hrest⟩ := ih (loop_body o their_sock w).2 (loop_body o their_sock w).1 hrun2
    simp only [main_loop, hrun, ne_eq, not_false_eq_true, if_true]
    rw [hrest]
    simp only [loop_body, sys_accept, print_address_eq, handle_connection, sys_close, emit]
    split_ifs <;> simp

theorem dispatches_accepted_iteration (listenfd : Int) (o : AcceptOutcome) :
    dispatches (accepted_iteration listenfd o) = [o.ret] := by
  unfold accepted_iteration address_events
  split_ifs <;> simp [dispatches]

theorem closes_accepted_iteration (listenfd : Int) (o : AcceptOutcome) :
    closes (accepted_iteration listenfd o) = [o.ret] := by
  unfold accepted_iteration address_events
  split_ifs <;> simp [closes]

theorem dispatches_accepted_run (listenfd : Int) (os : List AcceptOutcome) :
    dispatches (accepted_run listenfd os) = os.map AcceptOutcome.ret := by
  induction os with
  | nil => rfl
  | cons o os ih => simp [accepted_run, dispatches_append, dispatches_accepted_iteration, ih]

theorem closes_accepted_run (listenfd : Int) (os : List AcceptOutcome) :
    closes (accepted_run listenfd os) = os.map AcceptOutcome.ret := by
  induction os with
  | nil => rfl
  | cons o os ih => simp [accepted_run, closes_append, closes_accepted_iteration, ih]

theorem main_loop_accepted (os : List AcceptOutcome) (their_sock : Sockaddr) (w : World)
    (hrun : w.should_continue ≠ 0) (hok : ∀ o ∈ os, 0 ≤ o.ret) :
    (main_loop os their_sock w).trace =
      w.trace ++ accepted_run w.sockfd os ++
        [Event.printf "Accepting connections.\n", Event.accept_call w.sockfd] := by
  induction os generalizing their_sock w with
  | nil => simp [main_loop, hrun, emit, accepted_run]
  | cons o os ih =>
    have hrun2 : (loop_body o their_sock w).1.should_continue ≠ 0 := by
      rw [loop_body_should_continue]; exact hrun
    have ho : 0 ≤ o.ret := hok o (List.mem_cons_self _ _)
    have hos : ∀ x ∈ os, 0 ≤ x.ret := fun x hx => hok x (List.mem_cons_of_mem _ hx)
    simp only [main_loop, hrun, ne_eq, not_false_eq_true, if_true]
    rw [ih _ _ hrun2 hos, loop_body_accepted o their_sock w ho, loop_body_sockfd]
    simp [accepted_run]

theorem accepted_run_append (listenfd : Int) (a b : List AcceptOutcome) :
    accepted_run listenfd (a ++ b) = accepted_run listenfd a ++ accepted_run listenfd b := by
  induction a with
  | nil => rfl
  | cons o os ih => simp [accepted_run, ih]

theorem accepted_run_next_accept (listenfd : Int) (os : List AcceptOutcome) :
    ∃ rest, accepted_run listenfd os ++
        [Event.printf "Accepting connections.\n", Event.accept_call listenfd] =
      [Event.printf "Accepting connections.\n", Event.accept_call listenfd] ++ rest := by
  cases os with
  | nil => exact ⟨[], by simp [accepted_run]⟩
  | cons o os => exact ⟨_, by simp only [accepted_run, accepted_iteration, List.append_assoc,
      List.cons_append, List.nil_append]; rfl⟩

theorem loop_body_openFds (o : AcceptOutcome) (their_sock : Sockaddr) (w : World) :
    (loop_body o their_sock w).1.openFds = w.openFds.filter (fun d => d != o.ret) := by
  simp only [loop_body, sys_accept, print_address_eq, handle_connection, sys_close, emit]
  split_ifs <;> simp [List.filter_cons]

theorem main_loop_openFds (os : List AcceptOutcome) (their_sock : Sockaddr) (w : World)
    (hrun : w.should_continue ≠ 0) :
    (main_loop os their_sock w).openFds =
      w.openFds.filter (fun d => decide (d ∉ os.map AcceptOutcome.ret)) := by
  induction os generalizing their_sock w with
  | nil => simp [main_loop, hrun, emit]
  | cons o os ih =>
    have hrun2 : (loop_body o their_sock w).1.should_continue ≠ 0 := by
      rw [loop_body_should_continue]; exact hrun
    simp only [main_loop, hrun, ne_eq, not_false_eq_true, if_true]
    rw [ih _ _ hrun2, loop_body_openFds, List.filter_filter]
    apply List.filter_congr
    intro d _
    by_cases h1 : d = o.ret <;> by_cases h2 : d ∈ List.map AcceptOutcome.ret os <;>
      simp [h1, h2]

/-! ## Claims -/

/-- C1, evaluated on the code: `getaddrinfo` returns 0, `socket` returns descriptor
3 and `bind` returns 0.  After `init_networking` and then `close_socket` the global
`sockfd` is -1 and the process has not exited, but no `close` was issued and
descriptor 3 is still open. -/
theorem init_then_close_socket_leaves_descriptor_open :
    (init_networking ⟨0, 3, 0⟩ initial).exited = none ∧
    (close_socket (init_networking ⟨0, 3, 0⟩ initial)).sockfd = -1 ∧
    closes (close_socket (init_networking ⟨0, 3, 0⟩ initial)).trace = [] ∧
    3 ∈ (close_socket (init_networking ⟨0, 3, 0⟩ initial)).openFds := by
  decide

/-- C2: over every starting state and every finite sequence of `close_socket` and
`signal_handler` invocations, the closes issued are exactly one close of the
listening descriptor when it was open and the sequence is not empty, and none
otherwise, so at most one; a second `close_socket` changes nothing: the state
after two calls is the state after one, with `sockfd = -1` and the same trace. -/
theorem close_socket_idempotent_single_close (ops : List Op) (w : World) :
    closes (runOps ops w).trace =
      closes w.trace ++ (if w.sockfd > -1 ∧ ops ≠ [] then [w.sockfd] else []) ∧
    (closes (runOps ops w).trace).length ≤ (closes w.trace).length + 1 ∧
    close_socket (close_socket w) = close_socket w ∧
    (close_socket w).sockfd = -1 ∧
    (close_socket (close_socket w)).trace = (close_socket w).trace := by
  have hidem : close_socket (close_socket w) = close_socket w :=
    close_socket_closed _ (close_socket_sockfd w)
  refine ⟨runOps_closes ops w, ?_, hidem, close_socket_sockfd w, by rw [hidem]⟩
  rw [runOps_closes]
  split_ifs <;> simp

/-- C3, evaluated on the code: `signal_handler` never writes `should_continue`.
From the listening state with `should_continue = 1`, after `signal_handler(SIGTERM)`
the listening descriptor 3 is closed and `sockfd = -1`, but `should_continue` is
still 1, and the loop condition lets `main_loop` go on to call `accept`. -/
theorem signal_handler_leaves_should_continue_set :
    (∀ (signum : Int) (w : World),
      (signal_handler signum w).should_continue = w.should_continue) ∧
    (signal_handler SIGTERM listening).sockfd = -1 ∧
    closes (signal_handler SIGTERM listening).trace = [3] ∧
    (signal_handler SIGTERM listening).should_continue = 1 ∧
    (main_loop [] ⟨0, ""⟩ (signal_handler SIGTERM listening)).trace =
      [Event.close 3, Event.signal SIGTERM Disposition.SIG_DFL, Event.raise SIGTERM,
        Event.printf "Accepting connections.\n", Event.accept_call (-1)] := by
  refine ⟨signal_handler_should_continue, ?_, ?_, ?_, ?_⟩ <;> decide

/-- C4, evaluated on the code: `getaddrinfo` reports failure with the non-zero
status -2 while `socket` and `bind` succeed.  The test `status == -1` does not
fire: the process does not exit and goes on to `socket`, `bind`, both `signal`
registrations and `listen`. -/
theorem init_networking_continues_after_getaddrinfo_failure :
    (init_networking ⟨-2, 3, 0⟩ initial).exited = none ∧
    (init_networking ⟨-2, 3, 0⟩ initial).trace =
      [Event.getaddrinfo (-2), Event.socket 3, Event.bind 3 0, Event.freeaddrinfo,
        Event.signal SIGINT Disposition.signal_handler,
        Event.signal SIGTERM Disposition.signal_handler, Event.listen 3 BACKLOG] := by
  decide

/-- C5: in a state where `should_continue` is non-zero, an iteration whose `accept`
returns -1 issues the warning, issues no `err` and leaves the exit status and
`should_continue` as they were, and the loop goes on: the run continues with the
rest of the `accept` results, and the next effects after this iteration are the
banner and another `accept` call on `sockfd`. -/
theorem failed_accept_keeps_loop_running (o : AcceptOutcome) (os : List AcceptOutcome)
    (their_sock : Sockaddr) (w : World) (hrun : w.should_continue ≠ 0) (hfail : o.ret = -1) :
    (loop_body o their_sock w).1.trace =
      w.trace ++ [Event.printf "Accepting connections.\n", Event.accept_call w.sockfd,
        Event.accept_ret (-1), Event.warn "Failed to accept connection",
        Event.printf "Got a connection from "] ++ address_events their_sock ++
        [Event.printf "\n", Event.enter_handle_connection (-1), Event.close (-1)] ∧
    (loop_body o their_sock w).1.exited = w.exited ∧
    (loop_body o their_sock w).1.should_continue = w.should_continue ∧
    main_loop (o :: os) their_sock w =
      main_loop os (loop_body o their_sock w).2 (loop_body o their_sock w).1 ∧
    ∃ rest, (main_loop (o :: os) their_sock w).trace =
      (loop_body o their_sock w).1.trace ++
        [Event.printf "Accepting connections.\n", Event.accept_call w.sockfd] ++ rest := by
  have hstep : main_loop (o :: os) their_sock w =
      main_loop os (loop_body o their_sock w).2 (loop_body o their_sock w).1 := by
    simp [main_loop, hrun]
  have hrun2 : (loop_body o their_sock w).1.should_continue ≠ 0 := by
    rw [loop_body_should_continue]; exact hrun
  refine ⟨loop_body_failed o their_sock w hfail, loop_body_exited o their_sock w,
    loop_body_should_continue o their_sock w, hstep, ?_⟩
  obtain ⟨rest, hrest⟩ :=
    main_loop_calls_accept os (loop_body o their_sock w).2 (loop_body o their_sock w).1 hrun2
  refine ⟨rest, ?_⟩
  rw [hstep, hrest, loop_body_sockfd]

/-- Witness for C5: from the listening state, one failed `accept` followed by one
accepted connection on descriptor 4. -/
theorem failed_accept_keeps_loop_running_witness :
    listening.should_continue ≠ 0 ∧ (AcceptOutcome.mk (-1) ⟨0, ""⟩).ret = -1 ∧
    (loop_body ⟨-1, ⟨0, ""⟩⟩ ⟨0, ""⟩ listening).1.exited = listening.exited ∧
    (loop_body ⟨-1, ⟨0, ""⟩⟩ ⟨0, ""⟩ listening).1.should_continue =
      listening.should_continue ∧
    main_loop [⟨-1, ⟨0, ""⟩⟩, ⟨4, ⟨AF_INET, "10.0.0.1"⟩⟩] ⟨0, ""⟩ listening =
      main_loop [⟨4, ⟨AF_INET, "10.0.0.1"⟩⟩] (loop_body ⟨-1, ⟨0, ""⟩⟩ ⟨0, ""⟩ listening).2
        (loop_body ⟨-1, ⟨0, ""⟩⟩ ⟨0, ""⟩ listening).1 :=
  have h := failed_accept_keeps_loop_running ⟨-1, ⟨0, ""⟩⟩ [⟨4, ⟨AF_INET, "10.0.0.1"⟩⟩]
    ⟨0, ""⟩ listening (by decide) (by decide)
  ⟨by decide, by decide, h.2.1, h.2.2.1, h.2.2.2.1⟩

/-- C6, evaluated on the code: `accept` returns -1 while `their_sock` still holds
the address of an earlier peer.  After the warning the iteration goes on as for an
accepted connection: it prints the line with that address and calls
`handle_connection(-1)`, which issues `close(-1)`. -/
theorem failed_accept_still_dispatches :
    (loop_body ⟨-1, ⟨0, ""⟩⟩ ⟨AF_INET, "10.0.0.1"⟩ listening).1.trace =
      [Event.printf "Accepting connections.\n", Event.accept_call 3, Event.accept_ret (-1),
        Event.warn "Failed to accept connection", Event.printf "Got a connection from ",
        Event.printf "10.0.0.1", Event.printf "\n", Event.enter_handle_connection (-1),
        Event.close (-1)] ∧
    dispatches (loop_body ⟨-1, ⟨0, ""⟩⟩ ⟨AF_INET, "10.0.0.1"⟩ listening).1.trace = [-1] ∧
    closes (loop_body ⟨-1, ⟨0, ""⟩⟩ ⟨AF_INET, "10.0.0.1"⟩ listening).1.trace = [-1] := by
  decide

/-- C7: for every signal number and state, the effects of `signal_handler(signum)`
are, in this order, the close of the listening descriptor (issued when `sockfd`
is above -1), then `signal(signum, SIG_DFL)`, then `raise(signum)`; afterwards
the disposition of `signum` is the default and the disposition of every other
signal is what it was. -/
theorem signal_handler_cleanup_then_default_then_raise (signum : Int) (w : World) :
    (signal_handler signum w).trace =
      w.trace ++ (if w.sockfd > -1 then [Event.close w.sockfd] else []) ++
        [Event.signal signum Disposition.SIG_DFL, Event.raise signum] ∧
    disposition (signal_handler signum w) signum = Disposition.SIG_DFL ∧
    ∀ s : Int, s ≠ signum → disposition (signal_handler signum w) s = disposition w s := by
  have hd : (signal_handler signum w).dispositions =
      (signum, Disposition.SIG_DFL) :: w.dispositions := by
    unfold signal_handler close_socket
    by_cases h : w.sockfd > -1 <;> simp [h, sys_raise, sys_signal, emit, sys_close]
  refine ⟨signal_handler_trace signum w, ?_, ?_⟩
  · unfold disposition
    rw [hd]
    simp [List.lookup]
  · intro s hs
    have hne : (s == signum) = false := by simpa using hs
    unfold disposition
    rw [hd]
    simp [List.lookup, hne]

/-- C9: `handle_connection(fd)` issues exactly one close, on `fd`; afterwards `fd`
is not open, every other descriptor is open exactly when it was before, and the
global `sockfd`, `should_continue`, the signal dispositions and the exit status
are unchanged. -/
theorem handle_connection_closes_its_descriptor (fd : Int) (w : World) :
    (handle_connection fd w).trace =
      w.trace ++ [Event.enter_handle_connection fd, Event.close fd] ∧
    fd ∉ (handle_connection fd w).openFds ∧
    (∀ d : Int, d ≠ fd → (d ∈ (handle_connection fd w).openFds ↔ d ∈ w.openFds)) ∧
    (handle_connection fd w).sockfd = w.sockfd ∧
    (handle_connection fd w).should_continue = w.should_continue ∧
    (handle_connection fd w).dispositions = w.dispositions ∧
    (handle_connection fd w).exited = w.exited := by
  refine ⟨by simp [handle_connection, sys_close, emit], ?_, ?_, rfl, rfl, rfl, rfl⟩
  · simp [handle_connection, sys_close, emit, List.mem_filter]
  · intro d hd
    simp [handle_connection, sys_close, emit, List.mem_filter, hd]

/-- C10: when `should_continue` is non-zero and every one of the N `accept` calls
returns a descriptor, the effects of `main_loop` are the N iterations one after
the other, each consisting of the `accept` call and its result `fd_i`, the peer
address line, the entry into `handle_connection(fd_i)` and the close of `fd_i`,
followed by the next `accept` call; so the descriptors dispatched are `fd_1..fd_N`
in the order accepted.  Each `fd_i` is released before the next `accept` call: at
the point where the loop, having handled `fd_1..fd_i`, is inside the `accept` call
that follows, `fd_i` is not among the open descriptors, and that point is a point
of the whole run.  At the end the open descriptors are those open at the start
other than `fd_1..fd_N`. -/
theorem dispatch_in_accept_order (os : List AcceptOutcome) (their_sock : Sockaddr)
    (w : World) (hrun : w.should_continue ≠ 0) (hok : ∀ o ∈ os, 0 ≤ o.ret) :
    (main_loop os their_sock w).trace =
      w.trace ++ accepted_run w.sockfd os ++
        [Event.printf "Accepting connections.\n", Event.accept_call w.sockfd] ∧
    dispatches (main_loop os their_sock w).trace =
      dispatches w.trace ++ os.map AcceptOutcome.ret ∧
    closes (main_loop os their_sock w).trace =
      closes w.trace ++ os.map AcceptOutcome.ret ∧
    (main_loop os their_sock w).openFds =
      w.openFds.filter (fun d => decide (d ∉ os.map AcceptOutcome.ret)) ∧
    ∀ (pre : List AcceptOutcome) (o : AcceptOutcome) (post : List AcceptOutcome),
      os = pre ++ o :: post →
        o.ret ∉ (main_loop (pre ++ [o]) their_sock w).openFds ∧
        (main_loop (pre ++ [o]) their_sock w).trace =
          w.trace ++ accepted_run w.sockfd (pre ++ [o]) ++
            [Event.printf "Accepting connections.\n", Event.accept_call w.sockfd] ∧
        ∃ rest, (main_loop os their_sock w).trace =
          (main_loop (pre ++ [o]) their_sock w).trace ++ rest := by
  have ht := main_loop_accepted os their_sock w hrun hok
  refine ⟨ht, ?_, ?_, main_loop_openFds os their_sock w hrun, ?_⟩
  · rw [ht]
    simp [dispatches_append, dispatches_accepted_run, dispatches]
  · rw [ht]
    simp [closes_append, closes_accepted_run, closes]
  · intro pre o post hsplit
    have hpre : ∀ x ∈ pre ++ [o], 0 ≤ x.ret := by
      intro x hx
      apply hok x
      rw [hsplit]
      simp only [List.mem_append, List.mem_singleton] at hx
      rcases hx with hx | hx
      · exact List.mem_append_left _ hx
      · exact List.mem_append_right _ (by simp [hx])
    have htp := main_loop_accepted (pre ++ [o]) their_sock w hrun hpre
    refine ⟨?_, htp, ?_⟩
    · rw [main_loop_openFds (pre ++ [o]) their_sock w hrun]
      simp [List.mem_filter]
    · obtain ⟨rest, hrest⟩ := accepted_run_next_accept w.sockfd post
      refine ⟨rest, ?_⟩
      have hos : os = (pre ++ [o]) ++ post := by simp [hsplit]
      rw [ht, htp, hos, accepted_run_append]
      simp only [List.append_assoc]
      rw [hrest]

/-- Witness for C10: from the listening state on descriptor 3, two connections
accepted on descriptors 4 and 5. -/
theorem dispatch_in_accept_order_witness :
    listening.should_continue ≠ 0 ∧
    (∀ o ∈ [AcceptOutcome.mk 4 ⟨AF_INET, "10.0.0.1"⟩, AcceptOutcome.mk 5 ⟨AF_INET6, "::1"⟩],
      0 ≤ o.ret) ∧
    (main_loop [⟨4, ⟨AF_INET, "10.0.0.1"⟩⟩, ⟨5, ⟨AF_INET6, "::1"⟩⟩] ⟨0, ""⟩ listening).trace =
      listening.trace ++
        accepted_run listening.sockfd [⟨4, ⟨AF_INET, "10.0.0.1"⟩⟩, ⟨5, ⟨AF_INET6, "::1"⟩⟩] ++
        [Event.printf "Accepting connections.\n", Event.accept_call listening.sockfd] ∧
    dispatches
        (main_loop [⟨4, ⟨AF_INET, "10.0.0.1"⟩⟩, ⟨5, ⟨AF_INET6, "::1"⟩⟩] ⟨0, ""⟩ listening).trace =
      dispatches listening.trace ++ [4, 5] ∧
    (4 : Int) ∉ (main_loop [⟨4, ⟨AF_INET, "10.0.0.1"⟩⟩] ⟨0, ""⟩ listening).openFds ∧
    (5 : Int) ∉ (main_loop [⟨4, ⟨AF_INET, "10.0.0.1"⟩⟩, ⟨5, ⟨AF_INET6, "::1"⟩⟩] ⟨0, ""⟩
      listening).openFds :=
  have h := dispatch_in_accept_order [⟨4, ⟨AF_INET, "10.0.0.1"⟩⟩, ⟨5, ⟨AF_INET6, "::1"⟩⟩]
    ⟨0, ""⟩ listening (by decide) (by decide)
  ⟨by decide, by decide, h.1, h.2.1,
    (h.2.2.2.2 [] ⟨4, ⟨AF_INET, "10.0.0.1"⟩⟩ [⟨5, ⟨AF_INET6, "::1"⟩⟩] rfl).1,
    (h.2.2.2.2 [⟨4, ⟨AF_INET, "10.0.0.1"⟩⟩] ⟨5, ⟨AF_INET6, "::1"⟩⟩ [] rfl).1⟩

/-- C8, evaluated on the code: `init_networking` never assigns the global `sockfd`.
With `getaddrinfo` returning 0, `socket` returning descriptor 3 and `bind` returning
0, the function returns with descriptor 3 open and listening while the global
`sockfd` is still -1, and `main_loop` then calls `accept` on -1. -/
theorem init_networking_leaves_global_sockfd_unset :
    (∀ (so : StartupOutcomes) (w : World), (init_networking so w).sockfd = w.sockfd) ∧
    (init_networking ⟨0, 3, 0⟩ initial).exited = none ∧
    (init_networking ⟨0, 3, 0⟩ initial).sockfd = -1 ∧
    3 ∈ (init_networking ⟨0, 3, 0⟩ initial).openFds ∧
    (main ⟨0, 3, 0⟩ [] ⟨0, ""⟩ initial).trace =
      [Event.getaddrinfo 0, Event.socket 3, Event.bind 3 0, Event.freeaddrinfo,
        Event.signal SIGINT Disposition.signal_handler,
        Event.signal SIGTERM Disposition.signal_handler, Event.listen 3 BACKLOG,
        Event.printf "Accepting connections.\n", Event.accept_call (-1)] := by
  refine ⟨init_networking_sockfd, ?_, ?_, ?_, ?_⟩ <;> decide

end FreeFoodDropServer
